import Mathlib

/-!
Shallow embedding of `scheduler/calls/calls.go` from the mesos-go scheduler
call-builder package, together with proofs of the specification's claims.

Modelling conventions:
* Go pointer fields (`*T`, nil-able) become `Option T`; a nil slice versus a
  populated slice is `Option (List T)` where the distinction matters
  (`Call_Reconcile.Tasks`), plain `List T` otherwise.
* The Go `map[OfferID]struct{}` accumulator in `acceptBuilder` is modelled as
  an insertion-ordered duplicate-free list (`insertOfferID`); Go map iteration
  order is unspecified, so only order-insensitive facts (membership, `Nodup`,
  `toFinset`) are proved about the resulting offer-ID list.
* A Go `map[string]string` argument is modelled as an association list
  `List (String × String)`; key uniqueness, guaranteed by Go maps, appears as
  a `Nodup` hypothesis where a claim needs it.
* `panic` is modelled as `Except.error` carrying the panic message.
-/

namespace mesos

/-- Modelled from the spec: opaque offer identifier (a wrapped string). -/
structure OfferID where
  value : String
deriving DecidableEq, Repr

/-- Modelled from the spec: opaque agent identifier (a wrapped string). -/
structure AgentID where
  value : String
deriving DecidableEq, Repr

/-- Modelled from the spec: opaque task identifier (a wrapped string). -/
structure TaskID where
  value : String
deriving DecidableEq, Repr

/-- Modelled from the spec: opaque executor identifier (a wrapped string). -/
structure ExecutorID where
  value : String
deriving DecidableEq, Repr

/-- Modelled from the spec: opaque framework identity (a wrapped string). -/
structure FrameworkID where
  value : String
deriving DecidableEq, Repr

/-- Modelled from the spec: a task descriptor, opaque to this layer; only
identity matters to the claims, so it is a single-field token. -/
structure TaskInfo where
  name : String
deriving DecidableEq, Repr

/-- Modelled from the spec: a resource description, opaque to this layer. -/
structure Resource where
  name : String
deriving DecidableEq, Repr

/-- Modelled from the spec: a resource request, opaque to this layer. -/
structure Request where
  name : String
deriving DecidableEq, Repr

/-- Modelled from the spec: a filter option, opaque to this layer. -/
structure FilterOpt where
  token : Nat
deriving DecidableEq, Repr

/-- Modelled from the spec: the filter value attached to Accept/Decline
calls, assembled from the supplied filter options. -/
structure Filters where
  opts : List FilterOpt
deriving DecidableEq, Repr

/-- Modelled from the spec: `mesos.OptionalFilters` assembles the optional
filter value that the Filters modifier stores on the call. -/
def OptionalFilters (fo : List FilterOpt) : Option Filters :=
  some { opts := fo }

/-- Modelled from the spec: framework info carries the framework's existing
identity (absent for a first-time subscription). -/
structure FrameworkInfo where
  id : Option FrameworkID
  name : String
deriving DecidableEq, Repr

/-- Modelled from the spec: the nil-safe `GetID` accessor on a possibly-nil
`*FrameworkInfo`, returning the existing identity or nil. -/
def GetID : Option FrameworkInfo → Option FrameworkID
  | none => none
  | some info => info.id

/-- Discriminant of an offer operation (mesos.Offer_Operation_Type). -/
inductive Offer_Operation_Type where
  | LAUNCH
  | RESERVE
  | UNRESERVE
  | CREATE
  | DESTROY
deriving DecidableEq, Repr

/-- Launch payload of an offer operation. -/
structure Offer_Operation_Launch where
  taskInfos : List TaskInfo
deriving DecidableEq, Repr

/-- Reserve payload of an offer operation. -/
structure Offer_Operation_Reserve where
  resources : List Resource
deriving DecidableEq, Repr

/-- Unreserve payload of an offer operation. -/
structure Offer_Operation_Unreserve where
  resources : List Resource
deriving DecidableEq, Repr

/-- Create payload of an offer operation. -/
structure Offer_Operation_Create where
  volumes : List Resource
deriving DecidableEq, Repr

/-- Destroy payload of an offer operation. -/
structure Offer_Operation_Destroy where
  volumes : List Resource
deriving DecidableEq, Repr

/-- Modelled from the spec: an offer operation as a struct with a
discriminant pointer and one optional payload pointer per variant, mirroring
the Go `mesos.Offer_Operation` message; the zero value has every field nil. -/
structure Offer_Operation where
  type : Option Offer_Operation_Type := none
  launch : Option Offer_Operation_Launch := none
  reserve : Option Offer_Operation_Reserve := none
  unreserve : Option Offer_Operation_Unreserve := none
  create : Option Offer_Operation_Create := none
  destroy : Option Offer_Operation_Destroy := none
deriving DecidableEq, Repr

end mesos

namespace scheduler

/-- Modelled from the spec: the enumerated call kind (discriminant) of a
scheduler Call, one constructor per supported kind. -/
inductive Call_Type where
  | SUBSCRIBE
  | ACCEPT
  | DECLINE
  | REVIVE
  | KILL
  | SHUTDOWN
  | ACKNOWLEDGE
  | RECONCILE
  | MESSAGE
  | REQUEST
deriving DecidableEq, Repr

/-- String rendering of a call type, mirroring the Go enum `String()` method
used in the Filters panic message. -/
def Call_Type.typeString : Call_Type → String
  | .SUBSCRIBE => "SUBSCRIBE"
  | .ACCEPT => "ACCEPT"
  | .DECLINE => "DECLINE"
  | .REVIVE => "REVIVE"
  | .KILL => "KILL"
  | .SHUTDOWN => "SHUTDOWN"
  | .ACKNOWLEDGE => "ACKNOWLEDGE"
  | .RECONCILE => "RECONCILE"
  | .MESSAGE => "MESSAGE"
  | .REQUEST => "REQUEST"

/-- Subscribe payload: the framework info pointer and the force flag. -/
structure Call_Subscribe where
  frameworkInfo : Option mesos.FrameworkInfo
  force : Bool
deriving DecidableEq, Repr

/-- Accept payload: offer identifiers, operations and the optional filters. -/
structure Call_Accept where
  offerIDs : List mesos.OfferID
  operations : List mesos.Offer_Operation
  filters : Option mesos.Filters := none
deriving DecidableEq, Repr

/-- Decline payload: offer identifiers and the optional filters. -/
structure Call_Decline where
  offerIDs : List mesos.OfferID
  filters : Option mesos.Filters := none
deriving DecidableEq, Repr

/-- Kill payload: the mandatory task identifier and the optional agent. -/
structure Call_Kill where
  taskID : mesos.TaskID
  agentID : Option mesos.AgentID
deriving DecidableEq, Repr

/-- Shutdown payload: both identifiers are value fields, always present. -/
structure Call_Shutdown where
  executorID : mesos.ExecutorID
  agentID : mesos.AgentID
deriving DecidableEq, Repr

/-- Acknowledge payload: agent, task and the opaque status UUID bytes. -/
structure Call_Acknowledge where
  agentID : mesos.AgentID
  taskID : mesos.TaskID
  uuid : List UInt8
deriving DecidableEq, Repr

/-- One reconcile task entry: mandatory task ID, optional agent ID. -/
structure Call_Reconcile_Task where
  taskID : mesos.TaskID
  agentID : Option mesos.AgentID
deriving DecidableEq, Repr

/-- Reconcile payload. The Go `Tasks []Call_Reconcile_Task` slice is nil-able,
so it is modelled as `Option (List _)`: `none` is the nil (absent) slice. -/
structure Call_Reconcile where
  tasks : Option (List Call_Reconcile_Task) := none
deriving DecidableEq, Repr

/-- Message payload: agent, executor and the opaque data bytes. -/
structure Call_Message where
  agentID : mesos.AgentID
  executorID : mesos.ExecutorID
  data : List UInt8
deriving DecidableEq, Repr

/-- Request payload: the list of resource requests. -/
structure Call_Request where
  requests : List mesos.Request
deriving DecidableEq, Repr

/-- Modelled from the spec: the scheduler Call message, a struct with a
discriminant pointer, the optional framework identity, and one optional
payload pointer per call kind that carries a payload (Revive carries none);
the zero value of every pointer field is nil (`none`). -/
structure Call where
  type : Option Call_Type := none
  frameworkID : Option mesos.FrameworkID := none
  subscribe : Option Call_Subscribe := none
  accept : Option Call_Accept := none
  decline : Option Call_Decline := none
  kill : Option Call_Kill := none
  shutdown : Option Call_Shutdown := none
  acknowledge : Option Call_Acknowledge := none
  reconcile : Option Call_Reconcile := none
  message : Option Call_Message := none
  request : Option Call_Request := none
deriving DecidableEq, Repr

/-- A call-level modifier (`scheduler.CallOpt`): a function over the call
being built. Modifiers that can panic are modelled separately with `Except`. -/
def CallOpt : Type := Call → Call

/-- A reconcile-payload modifier (`scheduler.ReconcileOpt`). -/
def ReconcileOpt : Type := Call_Reconcile → Call_Reconcile

/-- Modelled from the spec: `Call_Reconcile.With` applies the reconcile
modifiers to the payload in the order supplied. -/
def Call_Reconcile.With (r : Call_Reconcile) (opts : List ReconcileOpt) : Call_Reconcile :=
  opts.foldl (fun cr o => o cr) r

end scheduler

namespace calls

/-- Framework sets a scheduler Call's FrameworkID (from `calls.Framework`). -/
def Framework (id : String) : scheduler.CallOpt :=
  fun c => { c with frameworkID := some { value := id } }

/-- Filters sets a scheduler Call's internal Filters, required for Accept and
Decline calls (from `calls.Filters`). The Go function panics on any other
call type, and dereferences the `Type` and payload pointers; both panics are
modelled as `Except.error` with the corresponding message. -/
def Filters (fo : List mesos.FilterOpt) : scheduler.Call → Except String scheduler.Call :=
  fun c =>
    match c.type with
    | none => .error "invalid memory address or nil pointer dereference"
    | some t =>
      match t with
      | .ACCEPT =>
        match c.accept with
        | none => .error "invalid memory address or nil pointer dereference"
        | some a => .ok { c with accept := some { a with filters := mesos.OptionalFilters fo } }
      | .DECLINE =>
        match c.decline with
        | none => .error "invalid memory address or nil pointer dereference"
        | some d => .ok { c with decline := some { d with filters := mesos.OptionalFilters fo } }
      | _ => .error ("filters not supported for type " ++ t.typeString)

/-- Subscribe returns a subscribe call with the given parameters; the call's
FrameworkID is filled in from the info specification (from `calls.Subscribe`). -/
def Subscribe (force : Bool) (info : Option mesos.FrameworkInfo) : scheduler.Call :=
  { type := some .SUBSCRIBE
    frameworkID := mesos.GetID info
    subscribe := some { frameworkInfo := info, force := force } }

/-- Accumulator for building an Accept call (from `calls.acceptBuilder`).
The Go offer-ID set `map[OfferID]struct{}` is an insertion-ordered
duplicate-free list here. -/
structure acceptBuilder where
  offerIDs : List mesos.OfferID
  operations : List mesos.Offer_Operation

/-- An accept-payload modifier (`calls.AcceptOpt`). -/
def AcceptOpt : Type := acceptBuilder → acceptBuilder

/-- An operation builder (`calls.OperationBuilder`): a thunk producing one
offer operation. -/
def OperationBuilder : Type := Unit → mesos.Offer_Operation

/-- Set-insert into the offer-ID accumulator: the Go map insert
`ab.offerIDs[oid] = struct{}{}` adds the key only if absent. -/
def insertOfferID (oid : mesos.OfferID) (l : List mesos.OfferID) : List mesos.OfferID :=
  if oid ∈ l then l else l ++ [oid]

/-- OfferWithOperations attaches one offer ID (set semantics) and appends the
operations built by each operation builder, in order (from
`calls.OfferWithOperations`). -/
def OfferWithOperations (oid : mesos.OfferID) (opOpts : List OperationBuilder) : AcceptOpt :=
  fun ab =>
    { offerIDs := insertOfferID oid ab.offerIDs
      operations := ab.operations ++ opOpts.map (fun op => op ()) }

/-- Accept returns an accept call with the given parameters; callers are
expected to fill in the FrameworkID and Filters (from `calls.Accept`). -/
def Accept (ops : List AcceptOpt) : scheduler.Call :=
  let ab := ops.foldl (fun ab op => op ab) { offerIDs := [], operations := [] }
  { type := some .ACCEPT
    accept := some { offerIDs := ab.offerIDs, operations := ab.operations } }

/-- OpLaunch returns a launch operation builder for the given tasks. -/
def OpLaunch (ti : List mesos.TaskInfo) : OperationBuilder :=
  fun _ => { type := some .LAUNCH, launch := some { taskInfos := ti } }

/-- OpReserve returns a reserve operation builder for the given resources. -/
def OpReserve (rs : List mesos.Resource) : OperationBuilder :=
  fun _ => { type := some .RESERVE, reserve := some { resources := rs } }

/-- OpUnreserve returns an unreserve operation builder for the given
resources. -/
def OpUnreserve (rs : List mesos.Resource) : OperationBuilder :=
  fun _ => { type := some .UNRESERVE, unreserve := some { resources := rs } }

/-- OpCreate returns a create operation builder for the given volumes. -/
def OpCreate (rs : List mesos.Resource) : OperationBuilder :=
  fun _ => { type := some .CREATE, create := some { volumes := rs } }

/-- OpDestroy returns a destroy operation builder for the given volumes. -/
def OpDestroy (rs : List mesos.Resource) : OperationBuilder :=
  fun _ => { type := some .DESTROY, destroy := some { volumes := rs } }

/-- Revive returns a revive call (from `calls.Revive`): only the type is set. -/
def Revive : scheduler.Call :=
  { type := some .REVIVE }

/-- Decline returns a decline call with the given parameters (from
`calls.Decline`). -/
def Decline (offerIDs : List mesos.OfferID) : scheduler.Call :=
  { type := some .DECLINE
    decline := some { offerIDs := offerIDs } }

/-- Normalizes an agent ID string to the optional pointer field: the empty
string becomes nil (from `calls.optionalAgentID`). -/
def optionalAgentID (agentID : String) : Option mesos.AgentID :=
  if agentID = "" then none else some { value := agentID }

/-- Kill returns a kill call with the given parameters (from `calls.Kill`). -/
def Kill (taskID agentID : String) : scheduler.Call :=
  { type := some .KILL
    kill := some { taskID := { value := taskID }, agentID := optionalAgentID agentID } }

/-- Shutdown returns a shutdown call with the given parameters (from
`calls.Shutdown`): both identifier fields are plain values, stored verbatim. -/
def Shutdown (executorID agentID : String) : scheduler.Call :=
  { type := some .SHUTDOWN
    shutdown := some { executorID := { value := executorID }, agentID := { value := agentID } } }

/-- Acknowledge returns an acknowledge call with the given parameters (from
`calls.Acknowledge`). -/
def Acknowledge (agentID taskID : String) (uuid : List UInt8) : scheduler.Call :=
  { type := some .ACKNOWLEDGE
    acknowledge := some { agentID := { value := agentID }, taskID := { value := taskID }, uuid := uuid } }

/-- One iteration of the `ReconcileTasks` loop body, mapped over the whole
mapping: each (taskID, agentID) pair yields one task entry with the agent ID
normalized by `optionalAgentID`. -/
def reconcileEntries (tasks : List (String × String)) : List scheduler.Call_Reconcile_Task :=
  tasks.map (fun kv => { taskID := { value := kv.1 }, agentID := optionalAgentID kv.2 })

/-- ReconcileTasks constructs the task entries from the given taskID-to-agentID
mapping (from `calls.ReconcileTasks`): an empty mapping stores the nil slice,
otherwise one entry per mapping pair with the agent ID normalized. -/
def ReconcileTasks (tasks : List (String × String)) : scheduler.ReconcileOpt :=
  fun cr =>
    if tasks.length = 0 then
      { cr with tasks := none }
    else
      { cr with tasks := some (reconcileEntries tasks) }

/-- Reconcile returns a reconcile call whose payload is the zero
`Call_Reconcile` with the reconcile modifiers applied in order (from
`calls.Reconcile`). -/
def Reconcile (opts : List scheduler.ReconcileOpt) : scheduler.Call :=
  { type := some .RECONCILE
    reconcile := some (scheduler.Call_Reconcile.With {} opts) }

/-- Message returns a message call with the given parameters (from
`calls.Message`). -/
def Message (agentID executorID : String) (data : List UInt8) : scheduler.Call :=
  { type := some .MESSAGE
    message := some { agentID := { value := agentID }, executorID := { value := executorID }, data := data } }

/-- Request returns a resource request call with the given parameters (from
`calls.Request`). -/
def Request (requests : List mesos.Request) : scheduler.Call :=
  { type := some .REQUEST
    request := some { requests := requests } }

end calls

/-! Observers used to state the claims. -/

/-- The populated/absent status of each of the nine payload variants of a
Call, in declaration order (subscribe, accept, decline, kill, shutdown,
acknowledge, reconcile, message, request). -/
def payloadFlags (c : scheduler.Call) : List Bool :=
  [c.subscribe.isSome, c.accept.isSome, c.decline.isSome, c.kill.isSome,
   c.shutdown.isSome, c.acknowledge.isSome, c.reconcile.isSome,
   c.message.isSome, c.request.isSome]

/-- The payload-variant pattern a well-formed Call of each kind must show:
exactly the variant matching the discriminant populated, every other variant
absent; the Revive kind carries no payload variant at all. -/
def expectedFlags : scheduler.Call_Type → List Bool
  | .SUBSCRIBE => [true, false, false, false, false, false, false, false, false]
  | .ACCEPT => [false, true, false, false, false, false, false, false, false]
  | .DECLINE => [false, false, true, false, false, false, false, false, false]
  | .REVIVE => [false, false, false, false, false, false, false, false, false]
  | .KILL => [false, false, false, true, false, false, false, false, false]
  | .SHUTDOWN => [false, false, false, false, true, false, false, false, false]
  | .ACKNOWLEDGE => [false, false, false, false, false, true, false, false, false]
  | .RECONCILE => [false, false, false, false, false, false, true, false, false]
  | .MESSAGE => [false, false, false, false, false, false, false, true, false]
  | .REQUEST => [false, false, false, false, false, false, false, false, true]

/-- A Call is well-formed for kind `t` when its discriminant is `t` and its
payload variants show exactly the pattern demanded by `t`. -/
def callShape (c : scheduler.Call) (t : scheduler.Call_Type) : Prop :=
  c.type = some t ∧ payloadFlags c = expectedFlags t

/-- The offer-ID list of a Call's Accept payload (empty when absent). -/
def acceptedOfferIDs (c : scheduler.Call) : List mesos.OfferID :=
  match c.accept with
  | some a => a.offerIDs
  | none => []

/-- The operations list of a Call's Accept payload (empty when absent). -/
def acceptedOperations (c : scheduler.Call) : List mesos.Offer_Operation :=
  match c.accept with
  | some a => a.operations
  | none => []

/-- The Accept modifier list described by offer-level data: one
`OfferWithOperations` modifier per (offer ID, operation builders) pair. -/
def offersOf (specs : List (mesos.OfferID × List calls.OperationBuilder)) : List calls.AcceptOpt :=
  specs.map (fun p => calls.OfferWithOperations p.1 p.2)

/-- The operations produced by the offer-level data, offer by offer in the
supplied order: the concatenation of each offer's built operations. -/
def builtOperations (specs : List (mesos.OfferID × List calls.OperationBuilder)) : List mesos.Offer_Operation :=
  (specs.map (fun p => p.2.map (fun op => op ()))).flatten

/-! Claim theorems. -/

/-- C1: for every one of the ten call-kind constructors, the returned Call's
discriminant equals that kind and exactly the payload variant matching the
discriminant is populated, every other payload variant being absent (Revive
carries no payload variant, so for it every variant is absent). -/
theorem constructors_discriminant_payload_exclusive :
    (∀ force info, callShape (calls.Subscribe force info) .SUBSCRIBE) ∧
    (∀ ops, callShape (calls.Accept ops) .ACCEPT) ∧
    callShape calls.Revive .REVIVE ∧
    (∀ oids, callShape (calls.Decline oids) .DECLINE) ∧
    (∀ t a, callShape (calls.Kill t a) .KILL) ∧
    (∀ e a, callShape (calls.Shutdown e a) .SHUTDOWN) ∧
    (∀ a t u, callShape (calls.Acknowledge a t u) .ACKNOWLEDGE) ∧
    (∀ opts, callShape (calls.Reconcile opts) .RECONCILE) ∧
    (∀ a e d, callShape (calls.Message a e d) .MESSAGE) ∧
    (∀ rs, callShape (calls.Request rs) .REQUEST) :=
  ⟨fun _ _ => ⟨rfl, rfl⟩, fun _ => ⟨rfl, rfl⟩, ⟨rfl, rfl⟩, fun _ => ⟨rfl, rfl⟩,
   fun _ _ => ⟨rfl, rfl⟩, fun _ _ => ⟨rfl, rfl⟩, fun _ _ _ => ⟨rfl, rfl⟩,
   fun _ => ⟨rfl, rfl⟩, fun _ _ _ => ⟨rfl, rfl⟩, fun _ => ⟨rfl, rfl⟩⟩

/-- C2 counterexample: the Reconcile call built via `ReconcileTasks` over the
empty mapping stores the nil (absent) task list, not a present-but-empty one,
so the claimed present-but-empty marker distinguishable from an absent field
does not exist. -/
theorem reconcile_empty_not_present_but_empty :
    (calls.Reconcile [calls.ReconcileTasks []]).reconcile = some { tasks := none } ∧
    ({ tasks := none } : scheduler.Call_Reconcile) ≠ { tasks := some [] } := by
  exact ⟨rfl, by decide⟩

/-- C2 amended: for the empty mapping, `ReconcileTasks` sets the task-list
field to nil (the absent slice) whatever it held before, so the built
Reconcile call carries an absent task list, which is the encoding of
"reconcile all known tasks". -/
theorem reconcile_empty_sets_nil_tasks (cr : scheduler.Call_Reconcile) :
    calls.ReconcileTasks [] cr = { tasks := none } ∧
    (calls.Reconcile [calls.ReconcileTasks []]).reconcile = some { tasks := none } :=
  ⟨rfl, rfl⟩

/-- C3: `Kill taskID ""` yields an absent agent field, and `Kill taskID s`
for non-empty `s` yields a present agent field carrying exactly `s`. -/
theorem kill_agentID_normalization (taskID s : String) (h : s ≠ "") :
    (calls.Kill taskID "").kill = some { taskID := { value := taskID }, agentID := none } ∧
    (calls.Kill taskID s).kill =
      some { taskID := { value := taskID }, agentID := some { value := s } } := by
  refine ⟨rfl, ?_⟩
  simp [calls.Kill, calls.optionalAgentID, h]

/-- C3 witness: evaluated at taskID "t-1" with the non-empty agent
"agent-7". -/
theorem kill_agentID_normalization_witness :
    (calls.Kill "t-1" "").kill = some { taskID := { value := "t-1" }, agentID := none } ∧
    (calls.Kill "t-1" "agent-7").kill =
      some { taskID := { value := "t-1" }, agentID := some { value := "agent-7" } } :=
  kill_agentID_normalization "t-1" "agent-7" (by decide)

/-- C8: the Framework modifier overwrites the frameworkID field with the
given identity and leaves the discriminant and every payload variant of the
Call unchanged, whatever its discriminant. -/
theorem framework_overwrites_only_frameworkID (c : scheduler.Call) (id : String) :
    (calls.Framework id c).frameworkID = some { value := id } ∧
    (calls.Framework id c).type = c.type ∧
    (calls.Framework id c).subscribe = c.subscribe ∧
    (calls.Framework id c).accept = c.accept ∧
    (calls.Framework id c).decline = c.decline ∧
    (calls.Framework id c).kill = c.kill ∧
    (calls.Framework id c).shutdown = c.shutdown ∧
    (calls.Framework id c).acknowledge = c.acknowledge ∧
    (calls.Framework id c).reconcile = c.reconcile ∧
    (calls.Framework id c).message = c.message ∧
    (calls.Framework id c).request = c.request :=
  ⟨rfl, rfl, rfl, rfl, rfl, rfl, rfl, rfl, rfl, rfl, rfl⟩

/-- C9: Shutdown stores both the executor ID and the agent ID verbatim as
always-present value fields, the empty string included: no normalization to
an absent field happens, unlike Kill. -/
theorem shutdown_fields_present (e a : String) :
    (calls.Shutdown e a).type = some .SHUTDOWN ∧
    (calls.Shutdown e a).shutdown =
      some { executorID := { value := e }, agentID := { value := a } } :=
  ⟨rfl, rfl⟩

/-- C10: a second `ReconcileTasks` modifier replaces, rather than merges
with, the task entries installed by a first one: the built call equals the
call built from the second mapping alone, and carries exactly the entries
derived from the second mapping. -/
theorem reconcileTasks_second_replaces_first (m1 m2 : List (String × String)) (h : m2 ≠ []) :
    calls.Reconcile [calls.ReconcileTasks m1, calls.ReconcileTasks m2] =
      calls.Reconcile [calls.ReconcileTasks m2] ∧
    (calls.Reconcile [calls.ReconcileTasks m2]).reconcile =
      some { tasks := some (calls.reconcileEntries m2) } := by
  have hlen : ¬ m2.length = 0 := by simpa [List.length_eq_zero] using h
  refine ⟨rfl, ?_⟩
  simp [calls.Reconcile, calls.ReconcileTasks, scheduler.Call_Reconcile.With, hlen]

/-- C10 witness: evaluated at the mappings [("t1","a1")] and [("t2","")]. -/
theorem reconcileTasks_second_replaces_first_witness :
    calls.Reconcile [calls.ReconcileTasks [("t1", "a1")], calls.ReconcileTasks [("t2", "")]] =
      calls.Reconcile [calls.ReconcileTasks [("t2", "")]] ∧
    (calls.Reconcile [calls.ReconcileTasks [("t2", "")]]).reconcile =
      some { tasks := some (calls.reconcileEntries [("t2", "")]) } :=
  reconcileTasks_second_replaces_first [("t1", "a1")] [("t2", "")] (by decide)

/-- C4: the Filters modifier, applied to a Call whose discriminant is Accept
or Decline, succeeds and sets the filter field on the matching payload
variant; applied to a Call of any other discriminant it raises the fatal
usage error (the Go panic, modelled as `Except.error`). -/
theorem filters_dispatch (fo : List mesos.FilterOpt) (c : scheduler.Call)
    (a : scheduler.Call_Accept) (d : scheduler.Call_Decline) :
    (c.type = some .ACCEPT → c.accept = some a →
      calls.Filters fo c =
        .ok { c with accept := some { a with filters := mesos.OptionalFilters fo } }) ∧
    (c.type = some .DECLINE → c.decline = some d →
      calls.Filters fo c =
        .ok { c with decline := some { d with filters := mesos.OptionalFilters fo } }) ∧
    (∀ t, c.type = some t → t ≠ .ACCEPT → t ≠ .DECLINE →
      calls.Filters fo c =
        .error ("filters not supported for type " ++ t.typeString)) := by
  refine ⟨?_, ?_, ?_⟩
  · intro ht ha
    simp [calls.Filters, ht, ha]
  · intro ht hd
    simp [calls.Filters, ht, hd]
  · intro t ht hA hD
    cases t <;> simp [calls.Filters, ht] <;> simp_all

/-- C4 witness: at a concrete Accept call the modifier succeeds and sets the
filter field; at a concrete Subscribe call it raises the usage error naming
the offending type. -/
theorem filters_dispatch_witness :
    calls.Filters [] (calls.Accept []) =
      .ok { calls.Accept [] with
            accept := some { offerIDs := [], operations := [],
                             filters := mesos.OptionalFilters [] } } ∧
    calls.Filters [] (calls.Subscribe false none) =
      .error "filters not supported for type SUBSCRIBE" :=
  ⟨(filters_dispatch [] (calls.Accept [])
      { offerIDs := [], operations := [] } { offerIDs := [] }).1 rfl rfl,
   (filters_dispatch [] (calls.Subscribe false none)
      { offerIDs := [], operations := [] } { offerIDs := [] }).2.2
      .SUBSCRIBE rfl (by decide) (by decide)⟩

/-- C7: for a non-empty mapping with unique keys, the built Reconcile call
carries exactly one task entry per mapping pair, the task IDs of the entries
repeat no key, and a (taskID, optional agentID) pair occurs among the
entries exactly when the mapping holds that key with a value normalizing to
that optional agent ID. -/
theorem reconcileTasks_entry_set (m : List (String × String))
    (hk : (m.map Prod.fst).Nodup) (hne : m ≠ []) :
    (calls.Reconcile [calls.ReconcileTasks m]).reconcile =
      some { tasks := some (calls.reconcileEntries m) } ∧
    (calls.reconcileEntries m).length = m.length ∧
    ((calls.reconcileEntries m).map (fun task => task.taskID.value)).Nodup ∧
    (∀ t a, ({ taskID := { value := t }, agentID := a } : scheduler.Call_Reconcile_Task) ∈
        calls.reconcileEntries m ↔ ∃ v, (t, v) ∈ m ∧ calls.optionalAgentID v = a) := by
  have hlen : ¬ m.length = 0 := by simpa [List.length_eq_zero] using hne
  refine ⟨?_, ?_, ?_, ?_⟩
  · simp [calls.Reconcile, calls.ReconcileTasks, scheduler.Call_Reconcile.With, hlen]
  · simp [calls.reconcileEntries]
  · simpa [calls.reconcileEntries, List.map_map, Function.comp] using hk
  · intro t a
    constructor
    · intro hmem
      rcases List.mem_map.mp hmem with ⟨kv, hkv, heq⟩
      rcases kv with ⟨k, v⟩
      simp only [scheduler.Call_Reconcile_Task.mk.injEq, mesos.TaskID.mk.injEq] at heq
      exact ⟨v, by simpa [heq.1] using hkv, heq.2⟩
    · rintro ⟨v, hv, rfl⟩
      exact List.mem_map.mpr ⟨(t, v), hv, rfl⟩

/-- C7 witness: evaluated at the mapping [("t1","a1"),("t2","")]; the
entry-set characterization gives the pair set of the produced entries. -/
theorem reconcileTasks_entry_set_witness :
    (calls.Reconcile [calls.ReconcileTasks [("t1", "a1"), ("t2", "")]]).reconcile =
      some { tasks := some (calls.reconcileEntries [("t1", "a1"), ("t2", "")]) } ∧
    (calls.reconcileEntries [("t1", "a1"), ("t2", "")]).length =
      ([("t1", "a1"), ("t2", "")] : List (String × String)).length ∧
    ((calls.reconcileEntries [("t1", "a1"), ("t2", "")]).map
        (fun task => task.taskID.value)).Nodup ∧
    (∀ t a, ({ taskID := { value := t }, agentID := a } : scheduler.Call_Reconcile_Task) ∈
        calls.reconcileEntries [("t1", "a1"), ("t2", "")] ↔
      ∃ v, (t, v) ∈ ([("t1", "a1"), ("t2", "")] : List (String × String)) ∧
        calls.optionalAgentID v = a) :=
  reconcileTasks_entry_set [("t1", "a1"), ("t2", "")] (by decide) (by decide)

/-! Helper lemmas about the Accept accumulator. -/

/-- Membership in the offer-ID accumulator after a set-insert. -/
theorem mem_insertOfferID (x oid : mesos.OfferID) (l : List mesos.OfferID) :
    x ∈ calls.insertOfferID oid l ↔ x ∈ l ∨ x = oid := by
  unfold calls.insertOfferID
  by_cases h : oid ∈ l
  · simp only [if_pos h]
    constructor
    · exact Or.inl
    · rintro (hx | rfl)
      · exact hx
      · exact h
  · simp [if_neg h]

/-- A set-insert keeps the offer-ID accumulator duplicate-free. -/
theorem nodup_insertOfferID (oid : mesos.OfferID) (l : List mesos.OfferID)
    (h : l.Nodup) : (calls.insertOfferID oid l).Nodup := by
  unfold calls.insertOfferID
  by_cases hm : oid ∈ l
  · simpa [if_pos hm] using h
  · simp [if_neg hm, List.nodup_append, h, hm]

/-- Folding `OfferWithOperations` modifiers appends each offer's built
operations, in the supplied order, to the running operations list. -/
theorem foldl_OWO_operations (specs : List (mesos.OfferID × List calls.OperationBuilder))
    (ab : calls.acceptBuilder) :
    ((specs.map (fun p => calls.OfferWithOperations p.1 p.2)).foldl
        (fun ab op => op ab) ab).operations =
      ab.operations ++ builtOperations specs := by
  induction specs generalizing ab with
  | nil => simp [builtOperations]
  | cons p rest ih =>
    simp only [List.map_cons, List.foldl_cons]
    rw [ih]
    simp [calls.OfferWithOperations, builtOperations]

/-- Membership in the accumulated offer-ID list after folding
`OfferWithOperations` modifiers. -/
theorem mem_foldl_OWO_offerIDs (specs : List (mesos.OfferID × List calls.OperationBuilder))
    (ab : calls.acceptBuilder) (x : mesos.OfferID) :
    x ∈ ((specs.map (fun p => calls.OfferWithOperations p.1 p.2)).foldl
        (fun ab op => op ab) ab).offerIDs ↔
      x ∈ ab.offerIDs ∨ x ∈ specs.map Prod.fst := by
  induction specs generalizing ab with
  | nil => simp
  | cons p rest ih =>
    simp only [List.map_cons, List.foldl_cons]
    rw [ih]
    simp [calls.OfferWithOperations, mem_insertOfferID]
    tauto

/-- Folding `OfferWithOperations` modifiers keeps the offer-ID list
duplicate-free. -/
theorem nodup_foldl_OWO_offerIDs (specs : List (mesos.OfferID × List calls.OperationBuilder))
    (ab : calls.acceptBuilder) (h : ab.offerIDs.Nodup) :
    ((specs.map (fun p => calls.OfferWithOperations p.1 p.2)).foldl
        (fun ab op => op ab) ab).offerIDs.Nodup := by
  induction specs generalizing ab with
  | nil => simpa using h
  | cons p rest ih =>
    simp only [List.map_cons, List.foldl_cons]
    exact ih _ (nodup_insertOfferID _ _ h)

/-- An offer ID occurs in the Accept call built from offer-level data exactly
when it occurs among the supplied offer IDs. -/
theorem mem_acceptedOfferIDs (specs : List (mesos.OfferID × List calls.OperationBuilder))
    (x : mesos.OfferID) :
    x ∈ acceptedOfferIDs (calls.Accept (offersOf specs)) ↔ x ∈ specs.map Prod.fst := by
  have h : acceptedOfferIDs (calls.Accept (offersOf specs)) =
      ((specs.map (fun p => calls.OfferWithOperations p.1 p.2)).foldl
        (fun ab op => op ab) ({ offerIDs := [], operations := [] } : calls.acceptBuilder)).offerIDs := rfl
  rw [h, mem_foldl_OWO_offerIDs]
  simp

/-- The operations of the Accept call built from offer-level data are the
concatenation of each offer's built operations, in the supplied order. -/
theorem acceptedOperations_offersOf (specs : List (mesos.OfferID × List calls.OperationBuilder)) :
    acceptedOperations (calls.Accept (offersOf specs)) = builtOperations specs := by
  have h : acceptedOperations (calls.Accept (offersOf specs)) =
      ((specs.map (fun p => calls.OfferWithOperations p.1 p.2)).foldl
        (fun ab op => op ab) ({ offerIDs := [], operations := [] } : calls.acceptBuilder)).operations := rfl
  rw [h, foldl_OWO_operations]
  simp

/-- The offer-ID list of the Accept call built from offer-level data is
duplicate-free. -/
theorem nodup_acceptedOfferIDs (specs : List (mesos.OfferID × List calls.OperationBuilder)) :
    (acceptedOfferIDs (calls.Accept (offersOf specs))).Nodup := by
  have h : acceptedOfferIDs (calls.Accept (offersOf specs)) =
      ((specs.map (fun p => calls.OfferWithOperations p.1 p.2)).foldl
        (fun ab op => op ab) ({ offerIDs := [], operations := [] } : calls.acceptBuilder)).offerIDs := rfl
  rw [h]
  exact nodup_foldl_OWO_offerIDs _ _ (by simp)

/-- C5: permuting the offer-level Accept modifiers leaves the set of offer
identifiers of the built call unchanged, while for any fixed modifier order
the operations list is exactly the concatenation, in supplied order, of the
operations produced by each offer's operation builders. -/
theorem accept_offer_set_perm_invariant
    (s1 s2 : List (mesos.OfferID × List calls.OperationBuilder)) (h : s1.Perm s2) :
    (acceptedOfferIDs (calls.Accept (offersOf s1))).toFinset =
      (acceptedOfferIDs (calls.Accept (offersOf s2))).toFinset ∧
    acceptedOperations (calls.Accept (offersOf s1)) = builtOperations s1 ∧
    acceptedOperations (calls.Accept (offersOf s2)) = builtOperations s2 := by
  refine ⟨?_, acceptedOperations_offersOf s1, acceptedOperations_offersOf s2⟩
  ext x
  simp only [List.mem_toFinset, mem_acceptedOfferIDs]
  exact (h.map Prod.fst).mem_iff

/-- C5 witness: offer "A" with [Reserve, Launch] then offer "B" with
[Create], against the swapped order: the offer-ID sets agree and the
operations come out as [Reserve, Launch, Create]. -/
theorem accept_offer_set_perm_invariant_witness :
    (acceptedOfferIDs (calls.Accept (offersOf
        [({ value := "A" }, [calls.OpReserve [], calls.OpLaunch []]),
         ({ value := "B" }, [calls.OpCreate []])]))).toFinset =
      (acceptedOfferIDs (calls.Accept (offersOf
        [({ value := "B" }, [calls.OpCreate []]),
         ({ value := "A" }, [calls.OpReserve [], calls.OpLaunch []])]))).toFinset ∧
    acceptedOperations (calls.Accept (offersOf
        [({ value := "A" }, [calls.OpReserve [], calls.OpLaunch []]),
         ({ value := "B" }, [calls.OpCreate []])])) =
      builtOperations
        [({ value := "A" }, [calls.OpReserve [], calls.OpLaunch []]),
         ({ value := "B" }, [calls.OpCreate []])] :=
  ⟨(accept_offer_set_perm_invariant
      [({ value := "A" }, [calls.OpReserve [], calls.OpLaunch []]),
       ({ value := "B" }, [calls.OpCreate []])]
      [({ value := "B" }, [calls.OpCreate []]),
       ({ value := "A" }, [calls.OpReserve [], calls.OpLaunch []])]
      (List.Perm.swap _ _ _)).1,
   (accept_offer_set_perm_invariant
      [({ value := "A" }, [calls.OpReserve [], calls.OpLaunch []]),
       ({ value := "B" }, [calls.OpCreate []])]
      [({ value := "B" }, [calls.OpCreate []]),
       ({ value := "A" }, [calls.OpReserve [], calls.OpLaunch []])]
      (List.Perm.swap _ _ _)).2.1⟩

/-- C6: the Accept call built from offer-level data has a duplicate-free
offer-ID list, an offer ID occurs in it exactly when some modifier attached
it (so repeated attachments collapse to one occurrence), and the operations
of every modifier are all kept, in order, in the operations sequence. -/
theorem accept_offerIDs_dedup (specs : List (mesos.OfferID × List calls.OperationBuilder)) :
    (acceptedOfferIDs (calls.Accept (offersOf specs))).Nodup ∧
    (∀ oid, oid ∈ acceptedOfferIDs (calls.Accept (offersOf specs)) ↔
      oid ∈ specs.map Prod.fst) ∧
    acceptedOperations (calls.Accept (offersOf specs)) = builtOperations specs :=
  ⟨nodup_acceptedOfferIDs specs,
   fun oid => mem_acceptedOfferIDs specs oid,
   acceptedOperations_offersOf specs⟩
